import Mathlib

/-!
Verification development for the skylos-rs static dead-code analyzer
(src/skylos-rs/src). The Rust sources are shallowly embedded: the Python
AST fragment that the visitors dispatch on becomes an inductive type, each
visitor becomes a pure function collecting the records it would push into
its buffers, and the aggregation pipeline of Skylos::analyze becomes a
function from a list of per-file inputs to the final AnalysisResult.
Machine integers (u8 confidence, usize counts) are modelled as Nat; all
values stay far below any overflow boundary in the modelled code paths.
-/

namespace SkylosRs

/-!  Character-list string helpers.  These model the Rust std string
operations used by the sources (str::starts_with, str::ends_with,
str::contains for a char and for a substring pattern, char::to_lowercase
restricted to ASCII as in the decorator checks).  They are written over
String.toList so that every predicate evaluates by kernel reduction. -/

/-- Model of str::starts_with: p is a prefix of s (prefix argument second). -/
def listStartsWith : List Char → List Char → Bool
  | _, [] => true
  | [], _ :: _ => false
  | c :: cs, d :: ds => c = d && listStartsWith cs ds

def strStartsWith (s p : String) : Bool := listStartsWith s.toList p.toList

/-- Model of str::ends_with via reversal. -/
def strEndsWith (s p : String) : Bool := listStartsWith s.toList.reverse p.toList.reverse

/-- Model of str::contains with a char pattern. -/
def strContainsChar (s : String) (c : Char) : Bool := s.toList.contains c

/-- Model of str::contains with a substring pattern: some suffix of s has p as a prefix. -/
def strContainsSub (s p : String) : Bool := s.toList.tails.any (fun t => listStartsWith t p.toList)

/-- Model of str::to_lowercase (the sources only lowercase ASCII decorator
and base-class names). -/
def strToLower (s : String) : String := String.mk (s.toList.map Char.toLower)

/-- Model of name.split(sep).last().unwrap_or(name) for sep = dot, used by
add_def_with_bases to compute simple_name (visitor.rs line 83). -/
def lastSegment (s : String) : String := go s.toList []
  where go : List Char → List Char → String
    | [], cur => String.mk cur.reverse
    | c :: rest, cur => if c = '.' then go rest [] else go rest (c :: cur)

/-- Model of parts.join(sep) for sep = dot (visitor.rs line 138). -/
def joinDots : List String → String
  | [] => ""
  | [p] => p
  | p :: q :: rest => p ++ "." ++ joinDots (q :: rest)

/-- Final path component, splitting on the separator char. -/
def lastComponent (p : String) : String := go p.toList []
  where go : List Char → List Char → String
    | [], cur => String.mk cur.reverse
    | c :: rest, cur => if c = '/' then go rest [] else go rest (c :: cur)

/-- Model of Path::ends_with("__init__.py") (visitor.rs line 84): Path
child matching compares whole components, so it holds exactly when the
final path component is the package-initializer file name. -/
def pathIsInit (p : String) : Bool := lastComponent p == "__init__.py"

/-!  AST fragment.  rustpython_ast statements and expressions are embedded
as the constructors the skylos-rs visitors dispatch on.  Statement kinds
the visitors treat as childless no-ops are collapsed into passStmt, and
expression kinds the reference visitor ignores are collapsed into
constantOther.  Line numbers, produced in Rust by LineIndex over byte
offsets, are carried directly on the definition-bearing nodes. -/

inductive CmpOp where
  | eq
  | notEq
  | lt
  deriving Repr

structure ImportAlias where
  name : String
  asname : Option String
  deriving Repr

inductive Expr where
  | name (id : String) (isLoad : Bool)
  | call (func : Expr) (args : List Expr) (keywords : List Expr)
  | attribute (value : Expr) (attr : String)
  | constantStr (s : String)
  | constantOther
  | boolOp (values : List Expr)
  | binOp (left : Expr) (right : Expr)
  | unaryOp (operand : Expr)
  | lambdaE (body : Expr)
  | ifExp (test : Expr) (body : Expr) (orelse : Expr)
  | compare (left : Expr) (ops : List CmpOp) (comparators : List Expr)
  | subscript (value : Expr) (slice : Expr)
  | listLit (elts : List Expr)
  | tupleLit (elts : List Expr)
  | awaitE (value : Expr)
  deriving Repr

inductive Stmt where
  | functionDef (name : String) (decorators : List Expr) (body : List Stmt) (line : Nat)
  | asyncFunctionDef (name : String) (decorators : List Expr) (body : List Stmt) (line : Nat)
  | classDef (name : String) (bases : List Expr) (body : List Stmt) (line : Nat)
  | importStmt (names : List ImportAlias) (line : Nat)
  | importFrom (moduleName : Option String) (names : List ImportAlias) (line : Nat)
  | assign (targets : List Expr) (value : Expr)
  | exprStmt (value : Expr)
  | ifStmt (test : Expr) (body : List Stmt) (orelse : List Stmt)
  | forStmt (target : Expr) (iter : Expr) (body : List Stmt) (orelse : List Stmt)
  | whileStmt (test : Expr) (body : List Stmt) (orelse : List Stmt)
  | withStmt (items : List Expr) (body : List Stmt)
  | returnStmt (value : Option Expr)
  | passStmt
  deriving Repr

/-!  Data model (visitor.rs lines 6..19).  The Definition struct is
embedded field for field; file is the path string, confidence the u8
score as a Nat, references the usize count as a Nat. -/

structure Definition where
  name : String
  full_name : String
  simple_name : String
  def_type : String
  file : String
  line : Nat
  confidence : Nat
  references : Nat
  is_exported : Bool
  in_init : Bool
  base_classes : List String
  deriving Repr, DecidableEq

/-!  SkylosVisitor (visitor.rs lines 45..139).  The definition and
reference buffers are append-only and never read during the walk, and the
qualified-name context (file path, module name, class stack) is only ever
extended for the duration of a class body, so the visitor is embedded
compositionally: each function returns the records emitted by its subtree,
in emission order, under an explicit context.  References are recorded in
Rust as (name, file path) pairs; the analyzer only ever folds the name
component into the global count table, so references are embedded as the
name strings. -/

structure Ctx where
  file_path : String
  module_name : String
  class_stack : List String
  deriving Repr

/-- Implicit-use decision of add_def_with_bases (visitor.rs lines 86..105):
test prefix, dynamic-dispatch prefixes, standard entry-point names, or
dunder names. -/
def isImplicitlyUsed (simple_name : String) : Bool :=
  let is_test := strStartsWith simple_name "test_"
  let is_dynamic_pattern := strStartsWith simple_name "visit_" ||
    strStartsWith simple_name "leave_" || strStartsWith simple_name "on_"
  let is_standard_entry := simple_name == "main" || simple_name == "run" ||
    simple_name == "execute"
  let is_dunder := strStartsWith simple_name "__" && strEndsWith simple_name "__"
  is_test || is_dynamic_pattern || is_standard_entry || is_dunder

/-- SkylosVisitor::add_def_with_bases (visitor.rs lines 76..125): builds the
Definition record pushed for one declaration.  Implicitly-used names start
with references = 1 and is_exported = true; everything starts at
confidence 100. -/
def addDefWithBases (file_path : String) (name : String) (def_type : String)
    (line : Nat) (base_classes : List String) : Definition :=
  let simple_name := lastSegment name
  let in_init := pathIsInit file_path
  let is_implicitly_used := isImplicitlyUsed simple_name
  let references := if is_implicitly_used then 1 else 0
  { name := name
    full_name := name
    simple_name := simple_name
    def_type := def_type
    file := file_path
    line := line
    confidence := 100
    references := references
    is_exported := is_implicitly_used
    in_init := in_init
    base_classes := base_classes }

/-- SkylosVisitor::get_qualified_name (visitor.rs lines 131..139): dot-join
of module name (when non-empty), class stack, and the symbol name. -/
def getQualifiedName (c : Ctx) (name : String) : String :=
  joinDots ((if c.module_name == "" then [] else [c.module_name]) ++ c.class_stack ++ [name])

mutual

/-- SkylosVisitor::visit_expr (visitor.rs lines 316..463): reference names
emitted by one expression, in emission order.  Name loads, call receivers
and arguments, the three-way attribute heuristic with the self/cls class
resolution special case, identifier-like string constants, and recursion
boilerplate for the remaining handled expression kinds. -/
def visitExpr (c : Ctx) : Expr → List String
  | .name id isLoad => if isLoad then [id] else []
  | .call func args keywords =>
      visitExpr c func ++ visitExprList c args ++ visitExprList c keywords
  | .attribute value attr =>
      (match value with
       | .name base_id _ =>
           if (base_id == "self" || base_id == "cls") && !c.class_stack.isEmpty then
             [joinDots ((if c.module_name == "" then [] else [c.module_name]) ++
               c.class_stack ++ [attr])]
           else
             [base_id, base_id ++ "." ++ attr, attr]
       | _ => []) ++ visitExpr c value
  | .constantStr s =>
      if !strContainsChar s ' ' && !strContainsChar s '.' && !(s == "") then [s] else []
  | .constantOther => []
  | .boolOp values => visitExprList c values
  | .binOp left right => visitExpr c left ++ visitExpr c right
  | .unaryOp operand => visitExpr c operand
  | .lambdaE body => visitExpr c body
  | .ifExp test body orelse => visitExpr c test ++ visitExpr c body ++ visitExpr c orelse
  | .compare left _ comparators => visitExpr c left ++ visitExprList c comparators
  | .subscript value slice => visitExpr c value ++ visitExpr c slice
  | .listLit elts => visitExprList c elts
  | .tupleLit elts => visitExprList c elts
  | .awaitE value => visitExpr c value

def visitExprList (c : Ctx) : List Expr → List String
  | [] => []
  | e :: rest => visitExpr c e ++ visitExprList c rest

end

/-- Base-class reference emission of the ClassDef arm (visitor.rs lines
170..180): each base expression is visited, and a plain-name base
additionally yields a module-qualified reference when the module name is
non-empty. -/
def visitClassBases (c : Ctx) (bases : List Expr) : List String :=
  bases.flatMap (fun b =>
    visitExpr c b ++
    (match b with
     | .name base_id _ =>
         if c.module_name == "" then [] else [c.module_name ++ "." ++ base_id]
     | _ => []))

/-- Base-class simple names of the ClassDef arm (visitor.rs lines
154..166): plain names keep their id, attribute bases keep the trailing
attribute, other base expressions are skipped. -/
def baseClassNames (bases : List Expr) : List String :=
  bases.filterMap (fun b =>
    match b with
    | .name base_id _ => some base_id
    | .attribute _ attr => some attr
    | _ => none)

mutual

/-- SkylosVisitor::visit_stmt (visitor.rs lines 141..296) together with the
visit_function_def helper (lines 299..314): the (definitions, references)
emitted by one statement.  Function and async-function definitions share
the helper body; class definitions push their name onto the class stack
around the body; from __future__ imports are skipped wholesale. -/
def visitStmt (c : Ctx) : Stmt → List Definition × List String
  | .functionDef name _ body line =>
      let qualified_name := getQualifiedName c name
      let def_type := if !c.class_stack.isEmpty then "method" else "function"
      let rest := visitStmts c body
      (addDefWithBases c.file_path qualified_name def_type line [] :: rest.1, rest.2)
  | .asyncFunctionDef name _ body line =>
      let qualified_name := getQualifiedName c name
      let def_type := if !c.class_stack.isEmpty then "method" else "function"
      let rest := visitStmts c body
      (addDefWithBases c.file_path qualified_name def_type line [] :: rest.1, rest.2)
  | .classDef name bases body line =>
      let qualified_name := getQualifiedName c name
      let d := addDefWithBases c.file_path qualified_name "class" line (baseClassNames bases)
      let inner := visitStmts { c with class_stack := c.class_stack ++ [name] } body
      (d :: inner.1, visitClassBases c bases ++ inner.2)
  | .importStmt names line =>
      (names.map (fun a => addDefWithBases c.file_path (a.asname.getD a.name) "import" line []), [])
  | .importFrom moduleName names line =>
      if moduleName == some "__future__" then ([], [])
      else
        (names.map (fun a => addDefWithBases c.file_path (a.asname.getD a.name) "import" line []), [])
  | .assign _ value => ([], visitExpr c value)
      -- the Assign arm also copies literal __all__ string lists into the
      -- visitor's exports buffer (visitor.rs lines 211..224); that buffer is
      -- never read by the analyzer, so it is not part of the embedded state
  | .exprStmt value => ([], visitExpr c value)
  | .ifStmt test body orelse =>
      let b := visitStmts c body
      let o := visitStmts c orelse
      (b.1 ++ o.1, visitExpr c test ++ b.2 ++ o.2)
  | .forStmt _ iter body orelse =>
      let b := visitStmts c body
      let o := visitStmts c orelse
      (b.1 ++ o.1, visitExpr c iter ++ b.2 ++ o.2)
  | .whileStmt test body orelse =>
      let b := visitStmts c body
      let o := visitStmts c orelse
      (b.1 ++ o.1, visitExpr c test ++ b.2 ++ o.2)
  | .withStmt items body =>
      let b := visitStmts c body
      (b.1, items.flatMap (fun item => visitExpr c item) ++ b.2)
  | .returnStmt value =>
      ([], match value with
           | some v => visitExpr c v
           | none => [])
  | .passStmt => ([], [])

def visitStmts (c : Ctx) : List Stmt → List Definition × List String
  | [] => ([], [])
  | s :: rest =>
      let a := visitStmt c s
      let b := visitStmts c rest
      (a.1 ++ b.1, a.2 ++ b.2)

end

/-!  TestAwareVisitor (test_utils.rs).  Its is_test_file flag comes from
TEST_FILE_RE over the file path, and its test_decorated_lines buffer is
filled by a walk that only descends into function and class bodies. -/

/-- Model of TEST_FILE_RE (test_utils.rs line 9), the regex matching paths
inside a test or tests directory (anchored at the start or after a path
separator, with either separator flavour) or ending in the test-module
suffix. -/
def isTestPath (p : String) : Bool :=
  strEndsWith p "_test.py" ||
  (["test", "tests"].any (fun t =>
    (['/', '\\'].any (fun s2 =>
      strStartsWith p (t ++ String.mk [s2]) ||
      (['/', '\\'].any (fun s1 => strContainsSub p (String.mk [s1] ++ t ++ String.mk [s2])))))))

/-- Decorator check of the TestAwareVisitor FunctionDef arm (test_utils.rs
lines 41..51): a plain-name decorator whose id, or an attribute decorator
whose trailing attribute, mentions pytest or fixture marks the line. -/
def testDecoratorLines (line : Nat) (decorators : List Expr) : List Nat :=
  decorators.flatMap (fun d =>
    match d with
    | .name id _ =>
        if strContainsSub id "pytest" || strContainsSub id "fixture" then [line] else []
    | .attribute _ attr =>
        if strContainsSub attr "pytest" || strContainsSub attr "fixture" then [line] else []
    | _ => [])

mutual

/-- TestAwareVisitor::visit_stmt (test_utils.rs lines 30..69): lines marked
test-related.  Only FunctionDef and ClassDef are matched (async functions
fall into the no-op arm), and only their bodies are recursed into. -/
def testVisitStmt : Stmt → List Nat
  | .functionDef name decorators body line =>
      (if strStartsWith name "test_" || strEndsWith name "_test" then [line] else []) ++
      testDecoratorLines line decorators ++ testVisitStmts body
  | .classDef name _ body line =>
      (if strStartsWith name "Test" || strEndsWith name "Test" then [line] else []) ++
      testVisitStmts body
  | _ => []

def testVisitStmts : List Stmt → List Nat
  | [] => []
  | s :: rest => testVisitStmt s ++ testVisitStmts rest

end

/-!  FrameworkAwareVisitor (framework.rs).  Of its state, only
framework_decorated_lines is ever read by the analyzer (apply_penalties);
the is_framework_file flag and detected framework set are write-only
downstream, so the embedding computes the decorated-line set. -/

/-- FrameworkAwareVisitor::get_decorator_name (framework.rs lines 99..108). -/
def getDecoratorName : Expr → String
  | .name id _ => id
  | .attribute _ attr => attr
  | .call func _ _ => getDecoratorName func
  | _ => ""

/-- FrameworkAwareVisitor::is_framework_decorator (framework.rs lines
110..119): lowercased name mentions a routing, HTTP-verb, validator, or
task marker. -/
def isFrameworkDecorator (name : String) : Bool :=
  let n := strToLower name
  strContainsSub n "route" || strContainsSub n "get" || strContainsSub n "post" ||
  strContainsSub n "put" || strContainsSub n "delete" || strContainsSub n "validator" ||
  strContainsSub n "task"

mutual

/-- FrameworkAwareVisitor::visit_stmt (framework.rs lines 37..87) restricted
to its framework_decorated_lines output: decorated functions and classes
with view/model/schema-named plain bases mark their line; import arms only
touch the write-only flags; only function and class bodies are recursed
into. -/
def frameworkVisitStmt : Stmt → List Nat
  | .functionDef _ decorators body line =>
      decorators.flatMap (fun d =>
        if isFrameworkDecorator (getDecoratorName d) then [line] else []) ++
      frameworkVisitStmts body
  | .classDef _ bases body line =>
      bases.flatMap (fun b =>
        match b with
        | .name id _ =>
            let idl := strToLower id
            if strContainsSub idl "view" || strContainsSub idl "model" ||
               strContainsSub idl "schema" then [line] else []
        | _ => []) ++
      frameworkVisitStmts body
  | _ => []

def frameworkVisitStmts : List Stmt → List Nat
  | [] => []
  | s :: rest => frameworkVisitStmt s ++ frameworkVisitStmts rest

end

/-!  Entry-point extractor (entry_point.rs). -/

/-- entry_point.rs is_name_dunder (lines 40..45): the expression is the
module-identity pseudo-variable (expression context is not inspected). -/
def isNameDunder : Expr → Bool
  | .name id _ => id == "__name__"
  | _ => false

/-- entry_point.rs is_main_string (lines 48..55). -/
def isMainString : Expr → Bool
  | .constantStr s => s == "__main__"
  | _ => false

/-- entry_point.rs is_main_guard (lines 23..37): an if over a single-op,
single-comparator comparison between the module-identity name and the main
string literal, in either order.  The comparison operator itself is never
inspected. -/
def isMainGuard : Stmt → Bool
  | .ifStmt test _ _ =>
      (match test with
       | .compare left ops comparators =>
           (match ops, comparators with
            | [_], [right] =>
                (isNameDunder left && isMainString right) ||
                (isNameDunder right && isMainString left)
            | _, _ => false)
       | _ => false)
  | _ => false

/-- entry_point.rs get_call_name (lines 115..124). -/
def getCallName : Expr → Option String
  | .name id _ => some id
  | .attribute _ attr => some attr
  | _ => none

mutual

/-- entry_point.rs collect_calls_from_expr (lines 90..112): call targets in
an expression; call keywords are not traversed. -/
def collectCallsFromExpr : Expr → List String
  | .call func args _ => (getCallName func).toList ++ collectCallsFromExprList args
  | .attribute value _ => collectCallsFromExpr value
  | .binOp left right => collectCallsFromExpr left ++ collectCallsFromExpr right
  | _ => []

def collectCallsFromExprList : List Expr → List String
  | [] => []
  | e :: rest => collectCallsFromExpr e ++ collectCallsFromExprList rest

end

mutual

/-- entry_point.rs collect_function_calls (lines 58..87): statement walk
over expression statements, assignment right-hand sides, both if branches,
for iterables and bodies, and while bodies. -/
def collectFunctionCalls : Stmt → List String
  | .exprStmt value => collectCallsFromExpr value
  | .assign _ value => collectCallsFromExpr value
  | .ifStmt _ body orelse => collectFunctionCallsList body ++ collectFunctionCallsList orelse
  | .forStmt _ iter body _ => collectCallsFromExpr iter ++ collectFunctionCallsList body
  | .whileStmt _ body _ => collectFunctionCallsList body
  | _ => []

def collectFunctionCallsList : List Stmt → List String
  | [] => []
  | s :: rest => collectFunctionCalls s ++ collectFunctionCallsList rest

end

/-- entry_point.rs detect_entry_point_calls (lines 5..20): the set of call
names collected from the bodies of top-level main guards.  The Rust
HashSet is embedded as a duplicate-free list in first-occurrence order;
the analyzer only iterates it once per name. -/
def detectEntryPointCalls (stmts : List Stmt) : List String :=
  (stmts.flatMap (fun s =>
    if isMainGuard s then
      match s with
      | .ifStmt _ body _ => collectFunctionCallsList body
      | _ => []
    else [])).foldl (fun acc n => if acc.contains n then acc else acc ++ [n]) []

/-!  utils.rs. -/

/-- utils.rs get_ignored_lines (lines 31..37): 1-based indices of source
lines containing the suppression marker comment.  The source text is
embedded as its list of lines (Rust str::lines). -/
def getIgnoredLines (srcLines : List String) : List Nat :=
  (srcLines.enum.filter (fun p => strContainsSub p.2 "pragma: no skylos")).map
    (fun p => p.1 + 1)

/-!  Analyzer (analyzer.rs). -/

/-- analyzer.rs apply_penalties (lines 197..224): suppression pragma and
test classification zero the confidence and stop; framework-decorated
lines drop it to 20; private single-underscore names lose 40 with
saturation; dunder names are zeroed last.  u8 saturating_sub is Nat
subtraction here since confidence never exceeds 100. -/
def applyPenalties (d : Definition) (is_test_file : Bool)
    (test_decorated_lines : List Nat) (framework_decorated_lines : List Nat)
    (ignored_lines : List Nat) : Definition :=
  if ignored_lines.contains d.line then { d with confidence := 0 }
  else if is_test_file || test_decorated_lines.contains d.line then { d with confidence := 0 }
  else
    let d1 := if framework_decorated_lines.contains d.line then { d with confidence := 20 } else d
    let d2 :=
      if strStartsWith d1.simple_name "_" && !strStartsWith d1.simple_name "__" then
        { d1 with confidence := d1.confidence - 40 }
      else d1
    if strStartsWith d2.simple_name "__" && strEndsWith d2.simple_name "__" then
      { d2 with confidence := 0 }
    else d2

/-- One discovered source file as the parallel map body of Skylos::analyze
(analyzer.rs lines 63..131) sees it: the path, the module name Rust takes
from the path's file stem, the source text as its line list, and the parse
outcome.  parsed = none is a rustpython parse failure; a file whose read
fails is analyzed with the empty default source, which parses to an empty
module body with no source lines. -/
structure PyFile where
  file_path : String
  module_name : String
  srcLines : List String
  parsed : Option (List Stmt)
  deriving Repr

/-- Per-file body of Skylos::analyze (analyzer.rs lines 65..131): run the
three visitors over a successfully parsed module, feed each entry-point
call back as a bare and a module-qualified reference, then apply the
penalty cascade to every collected definition.  A file that fails to parse
contributes empty buffers (the visitors never run). -/
def analyzeFile (f : PyFile) : List Definition × List String :=
  let ignored_lines := getIgnoredLines f.srcLines
  let is_test_file := isTestPath f.file_path
  match f.parsed with
  | none => ([], [])
  | some body =>
      let entry_point_calls := detectEntryPointCalls body
      let framework_decorated_lines := frameworkVisitStmts body
      let test_decorated_lines := testVisitStmts body
      let c : Ctx := { file_path := f.file_path, module_name := f.module_name, class_stack := [] }
      let visited := visitStmts c body
      let refs := visited.2 ++ entry_point_calls.flatMap (fun call_name =>
        [call_name] ++
        (if f.module_name == "" then [] else [f.module_name ++ "." ++ call_name]))
      (visited.1.map (fun d =>
        applyPenalties d is_test_file test_decorated_lines framework_decorated_lines
          ignored_lines), refs)

/-- Merge of all per-file definition buffers (analyzer.rs lines 134..146). -/
def processedDefs (files : List PyFile) : List Definition :=
  ((files.map analyzeFile).map Prod.fst).flatten

/-- Merge of all per-file reference buffers (analyzer.rs lines 134..146). -/
def allRefs (files : List PyFile) : List String :=
  ((files.map analyzeFile).map Prod.snd).flatten

/-- Reference-count resolution for one definition (analyzer.rs lines
148..161): the global table maps a name to its occurrence count among all
references, holding an entry exactly for names that occur at least once;
the definition keeps its initial count on a lookup miss. -/
def resolveReferences (all_refs : List String) (d : Definition) : Definition :=
  let count := all_refs.count d.full_name
  if count == 0 then d else { d with references := count }

/-- Definitions surviving the confidence filter and the zero-reference
check of the classification loop (analyzer.rs lines 158..168), in merge
order. -/
def keptDefs (confidence_threshold : Nat) (files : List PyFile) : List Definition :=
  ((processedDefs files).map (resolveReferences (allRefs files))).filter
    (fun d => !(d.confidence < confidence_threshold) && d.references == 0)

/-- AnalysisResult (analyzer.rs lines 17..35) restricted to the core
outputs: the four unused-symbol lists and the total_files summary count.
The pass-through secrets, danger, and quality finding lists of the
out-of-scope rule modules are not modelled. -/
structure AnalysisResult where
  unused_functions : List Definition
  unused_imports : List Definition
  unused_classes : List Definition
  unused_variables : List Definition
  total_files : Nat
  deriving Repr, DecidableEq

/-- Skylos::analyze after file discovery (analyzer.rs lines 61..194): the
classification loop pushes each kept zero-reference definition into the
list matching its def_type string, in merge order, which is the same as
filtering the kept definitions by def_type; total_files counts every
discovered file, parse failures included. -/
def analyze (confidence_threshold : Nat) (files : List PyFile) : AnalysisResult :=
  { unused_functions := (keptDefs confidence_threshold files).filter (fun d => d.def_type == "function")
    unused_imports := (keptDefs confidence_threshold files).filter (fun d => d.def_type == "import")
    unused_classes := (keptDefs confidence_threshold files).filter (fun d => d.def_type == "class")
    unused_variables := (keptDefs confidence_threshold files).filter (fun d => d.def_type == "variable")
    total_files := files.length }

/-- One WalkDir iterator entry of the discovery step (analyzer.rs lines
55..59): either a discovered Python file or a walk error, such as the
io error WalkDir yields for a non-existent root path. -/
inductive WalkEntry where
  | found (f : PyFile)
  | walkErr (msg : String)
  deriving Repr

/-- The discovery filter of Skylos::analyze (analyzer.rs lines 55..59):
filter_map over Result::ok drops every walk error entry. -/
def walkFiles (entries : List WalkEntry) : List PyFile :=
  entries.filterMap (fun e =>
    match e with
    | .found f => some f
    | .walkErr _ => none)

/-- Skylos::analyze as the fallible operation its signature advertises
(analyzer.rs line 54, returning Result): the body has no error return
path, so every run, including one whose root does not exist and therefore
yields only walk errors, ends in Ok. -/
def analyzeRun (confidence_threshold : Nat) (entries : List WalkEntry) :
    Except String AnalysisResult :=
  Except.ok (analyze confidence_threshold (walkFiles entries))

/-- Total number of definitions reported across the four unused-symbol
lists. -/
def totalReported (r : AnalysisResult) : Nat :=
  r.unused_functions.length + r.unused_imports.length +
  r.unused_classes.length + r.unused_variables.length

/-!  Concrete fixtures: the scenario programs named by the specification's
testable properties, written as the per-file inputs the analyzer sees
after discovery, parsing, and module-name extraction. -/

/-- Module A of the cross-module scenario: two top-level functions. -/
def fileA : PyFile :=
  { file_path := "proj/A.py"
    module_name := "A"
    srcLines := ["def used_function():", "    pass", "def unused_function():", "    pass"]
    parsed := some
      [ .functionDef "used_function" [] [.passStmt] 1
      , .functionDef "unused_function" [] [.passStmt] 3 ] }

/-- Module B of the cross-module scenario: from A import used_function,
then a bare call of it. -/
def fileB : PyFile :=
  { file_path := "proj/B.py"
    module_name := "B"
    srcLines := ["from A import used_function", "", "used_function()"]
    parsed := some
      [ .importFrom (some "A") [{ name := "used_function", asname := none }] 1
      , .exprStmt (.call (.name "used_function" true) [] []) ] }

/-- The self/cls scenario: a class whose second method calls self.helper()
and whose methods are otherwise unreferenced. -/
def classFile : PyFile :=
  { file_path := "proj/module.py"
    module_name := "module"
    srcLines := ["class MyClass:", "    def helper(self):", "        pass"
                , "    def another_method(self):", "        self.helper()"]
    parsed := some
      [ .classDef "MyClass" []
          [ .functionDef "helper" [] [.passStmt] 2
          , .functionDef "another_method" []
              [ .exprStmt (.call (.attribute (.name "self" true) "helper") [] []) ] 4 ] 1 ] }

/-- The entry-point scenario: main is called only from the top-level main
guard, next to an uncalled sibling function. -/
def entryBody : List Stmt :=
  [ .functionDef "main" [] [.passStmt] 1
  , .functionDef "unused_sibling" [] [.passStmt] 3
  , .ifStmt (.compare (.name "__name__" true) [.eq] [.constantStr "__main__"])
      [ .exprStmt (.call (.name "main" true) [] []) ] [] ]

def entryFile : PyFile :=
  { file_path := "proj/prog.py"
    module_name := "prog"
    srcLines := ["def main():", "    pass", "def unused_sibling():", "    pass"
                , "if __name__ == \"__main__\":", "    main()"]
    parsed := some entryBody }

/-- The suppression scenario: an unreferenced function declared on a line
bearing the pragma marker comment. -/
def pragmaFile : PyFile :=
  { file_path := "proj/m.py"
    module_name := "m"
    srcLines := ["def foo():  # pragma: no skylos", "    pass"]
    parsed := some [ .functionDef "foo" [] [.passStmt] 1 ] }

/-- The failure-isolation scenario, invalid half: a file whose parse
fails. -/
def badParseFile : PyFile :=
  { file_path := "proj/broken.py"
    module_name := "broken"
    srcLines := ["def broken(:"]
    parsed := none }

/-- The failure-isolation scenario, valid half: a file with one genuinely
unused function. -/
def goodFile : PyFile :=
  { file_path := "proj/good.py"
    module_name := "good"
    srcLines := ["def unused_function():", "    pass"]
    parsed := some [ .functionDef "unused_function" [] [.passStmt] 1 ] }

/-- A minimal file with one dead top-level function, used to witness the
universal theorems on concrete analyzer output. -/
def deadFile : PyFile :=
  { file_path := "proj/w.py"
    module_name := "w"
    srcLines := ["def dead():", "    pass"]
    parsed := some [ .functionDef "dead" [] [.passStmt] 1 ] }

/-- The Definition record the analyzer reports for deadFile's function. -/
def deadDef : Definition :=
  { name := "w.dead"
    full_name := "w.dead"
    simple_name := "dead"
    def_type := "function"
    file := "proj/w.py"
    line := 1
    confidence := 100
    references := 0
    is_exported := false
    in_init := false
    base_classes := [] }

/-- The Definition record the analyzer reports for classFile's class. -/
def myClassDef : Definition :=
  { name := "module.MyClass"
    full_name := "module.MyClass"
    simple_name := "MyClass"
    def_type := "class"
    file := "proj/module.py"
    line := 1
    confidence := 100
    references := 0
    is_exported := false
    in_init := false
    base_classes := [] }

/-- The Definition record pragmaFile contributes for its suppressed
function, confidence zeroed by the pragma rule. -/
def pragmaFooDef : Definition :=
  { name := "m.foo"
    full_name := "m.foo"
    simple_name := "foo"
    def_type := "function"
    file := "proj/m.py"
    line := 1
    confidence := 0
    references := 0
    is_exported := false
    in_init := false
    base_classes := [] }

/-- The Definition record the visitor emits for entryFile's main. -/
def mainDef : Definition :=
  { name := "prog.main"
    full_name := "prog.main"
    simple_name := "main"
    def_type := "function"
    file := "proj/prog.py"
    line := 1
    confidence := 100
    references := 1
    is_exported := true
    in_init := false
    base_classes := [] }

/-- The module body of the nested-function scenario: def outer containing
def inner. -/
def nestedBody : List Stmt :=
  [ .functionDef "outer" [] [ .functionDef "inner" [] [.passStmt] 2 ] 1 ]

/-- The visitor context for a module named m at the start of a file walk. -/
def nestedCtx : Ctx :=
  { file_path := "proj/m.py", module_name := "m", class_stack := [] }

/-- The explicit naming conditions of the implicit-use heuristics of
add_def_with_bases, spelled out disjunct by disjunct. -/
abbrev implicitNameCondition (s : String) : Prop :=
  strStartsWith s "test_" = true ∨ strStartsWith s "visit_" = true ∨
  strStartsWith s "leave_" = true ∨ strStartsWith s "on_" = true ∨
  s = "main" ∨ s = "run" ∨ s = "execute" ∨
  (strStartsWith s "__" = true ∧ strEndsWith s "__" = true)


/-!  Helper lemmas about the embedded pipeline. -/

/-- Every Definition built by add_def_with_bases carries the implicit-use
reference count determined by its simple name. -/
theorem addDefWithBases_references_eq (fp n ty : String) (ln : Nat) (bs : List String) :
    (addDefWithBases fp n ty ln bs).references =
      if isImplicitlyUsed (addDefWithBases fp n ty ln bs).simple_name then 1 else 0 := by
  simp [addDefWithBases]

/-- Emission invariant of the visitor walk: every definition a statement
emits has the reference count add_def_with_bases computes from its simple
name. -/
theorem visitStmt_references_invariant :
    ∀ (c : Ctx) (s : Stmt), ∀ d ∈ (visitStmt c s).1,
      d.references = if isImplicitlyUsed d.simple_name then 1 else 0 := by
  apply visitStmt.induct
    (fun c s => ∀ d ∈ (visitStmt c s).1, d.references = if isImplicitlyUsed d.simple_name then 1 else 0)
    (fun c l => ∀ d ∈ (visitStmts c l).1, d.references = if isImplicitlyUsed d.simple_name then 1 else 0)
  all_goals intros
  all_goals (try simp_all [visitStmt, visitStmts, addDefWithBases_references_eq])
  all_goals rename_i h
  all_goals
    first
    | (rcases h with rfl | h
       · exact addDefWithBases_references_eq _ _ _ _ _
       · solve_by_elim)
    | (rcases h with h | h <;> solve_by_elim)
    | (rcases h with ⟨a, ha, rfl⟩
       exact addDefWithBases_references_eq _ _ _ _ _)

/-- The statement-list version of the emission invariant. -/
theorem visitStmts_references_invariant (c : Ctx) (l : List Stmt) :
    ∀ d ∈ (visitStmts c l).1,
      d.references = if isImplicitlyUsed d.simple_name then 1 else 0 := by
  induction l with
  | nil => simp [visitStmts]
  | cons s rest ih =>
      intro d hd
      rw [visitStmts] at hd
      rcases List.mem_append.1 hd with h | h
      · exact visitStmt_references_invariant c s d h
      · exact ih d h

/-- apply_penalties only rewrites the confidence field. -/
theorem applyPenalties_preserves (d : Definition) (tf : Bool) (tl fw ig : List Nat) :
    (applyPenalties d tf tl fw ig).references = d.references ∧
    (applyPenalties d tf tl fw ig).simple_name = d.simple_name ∧
    (applyPenalties d tf tl fw ig).line = d.line ∧
    (applyPenalties d tf tl fw ig).def_type = d.def_type ∧
    (applyPenalties d tf tl fw ig).full_name = d.full_name := by
  simp only [applyPenalties]
  split_ifs <;> simp_all

/-- The suppression pragma zeroes confidence unconditionally. -/
theorem applyPenalties_ignored (d : Definition) (tf : Bool) (tl fw ig : List Nat)
    (h : ig.contains d.line = true) :
    (applyPenalties d tf tl fw ig).confidence = 0 := by
  have h2 : d.line ∈ ig := by simpa using h
  simp [applyPenalties, h2]

/-- resolve keeps the initial reference count exactly on a lookup miss, so
a zero-reference resolved definition had a zero initial count. -/
theorem resolveReferences_references_zero (refs : List String) (d : Definition)
    (h : (resolveReferences refs d).references = 0) : d.references = 0 := by
  by_cases hc : refs.count d.full_name == 0
  · simpa [resolveReferences, hc] using h
  · exfalso
    simp only [resolveReferences, hc, if_false] at h
    simp_all

/-- resolve only rewrites the reference count. -/
theorem resolveReferences_preserves (refs : List String) (d : Definition) :
    (resolveReferences refs d).simple_name = d.simple_name ∧
    (resolveReferences refs d).confidence = d.confidence ∧
    (resolveReferences refs d).def_type = d.def_type ∧
    (resolveReferences refs d).line = d.line := by
  simp only [resolveReferences]
  split_ifs <;> simp_all

/-- Membership in the kept list decomposes into a processed origin, the
threshold test, and the zero-reference test. -/
theorem mem_keptDefs {t : Nat} {files : List PyFile} {d : Definition}
    (h : d ∈ keptDefs t files) :
    (∃ d0 ∈ processedDefs files, d = resolveReferences (allRefs files) d0) ∧
    t ≤ d.confidence ∧ d.references = 0 := by
  simp only [keptDefs, List.mem_filter, List.mem_map, Bool.and_eq_true] at h
  obtain ⟨⟨d0, hd0, rfl⟩, hconf, hrefs⟩ := h
  refine ⟨⟨d0, hd0, rfl⟩, ?_, ?_⟩
  · simpa [Nat.not_lt] using hconf
  · simpa using hrefs

/-- Membership in any of the four unused lists implies membership in the
kept list. -/
theorem mem_analyze_lists {t : Nat} {files : List PyFile} {d : Definition}
    (h : d ∈ (analyze t files).unused_functions ∨ d ∈ (analyze t files).unused_imports ∨
         d ∈ (analyze t files).unused_classes ∨ d ∈ (analyze t files).unused_variables) :
    d ∈ keptDefs t files := by
  rcases h with h | h | h | h <;>
    (simp only [analyze] at h; exact (List.mem_filter.1 h).1)

/-- Each processed definition comes from one file's analysis. -/
theorem mem_processedDefs {files : List PyFile} {d : Definition}
    (h : d ∈ processedDefs files) : ∃ f ∈ files, d ∈ (analyzeFile f).1 := by
  simp only [processedDefs, List.mem_flatten, List.mem_map] at h
  obtain ⟨l, ⟨pr, ⟨f, hf, rfl⟩, rfl⟩, hd⟩ := h
  exact ⟨f, hf, hd⟩

/-- Each definition a file contributes is a penalty-adjusted visitor
emission over the successfully parsed module body. -/
theorem mem_analyzeFile_defs {f : PyFile} {d : Definition}
    (h : d ∈ (analyzeFile f).1) :
    ∃ body, f.parsed = some body ∧
      ∃ d1 ∈ (visitStmts { file_path := f.file_path, module_name := f.module_name, class_stack := [] } body).1,
        d = applyPenalties d1 (isTestPath f.file_path) (testVisitStmts body)
              (frameworkVisitStmts body) (getIgnoredLines f.srcLines) := by
  rcases hp : f.parsed with _ | body
  · simp [analyzeFile, hp] at h
  · simp only [analyzeFile, hp, List.mem_map] at h
    obtain ⟨d1, hd1, rfl⟩ := h
    exact ⟨body, rfl, d1, hd1, rfl⟩

/-- No definition reported in the kept list has an implicitly-used simple
name: implicit use seeds the reference count at one, and resolution can
only replace it by a positive occurrence count. -/
theorem mem_keptDefs_not_implicit {t : Nat} {files : List PyFile} {d : Definition}
    (h : d ∈ keptDefs t files) : isImplicitlyUsed d.simple_name = false := by
  obtain ⟨⟨d0, hd0, rfl⟩, _, hrefs⟩ := mem_keptDefs h
  obtain ⟨f, _, hdf⟩ := mem_processedDefs hd0
  obtain ⟨body, hp, d1, hd1, rfl⟩ := mem_analyzeFile_defs hdf
  have hinv := visitStmts_references_invariant _ body d1 hd1
  have hz := resolveReferences_references_zero (allRefs files)
    (applyPenalties d1 (isTestPath f.file_path) (testVisitStmts body)
      (frameworkVisitStmts body) (getIgnoredLines f.srcLines)) hrefs
  have hpres := applyPenalties_preserves d1 (isTestPath f.file_path) (testVisitStmts body)
    (frameworkVisitStmts body) (getIgnoredLines f.srcLines)
  have hsn := (resolveReferences_preserves (allRefs files)
    (applyPenalties d1 (isTestPath f.file_path) (testVisitStmts body)
      (frameworkVisitStmts body) (getIgnoredLines f.srcLines))).1
  rw [hpres.1] at hz
  rw [hsn, hpres.2.1]
  by_contra hcontra
  rw [Bool.not_eq_false] at hcontra
  rw [hinv, hcontra] at hz
  simp at hz

/-- The member-statement emissions are contained in the list emissions. -/
theorem visitStmts_defs_sub (c : Ctx) {s : Stmt} {l : List Stmt} (hs : s ∈ l) :
    ∀ d ∈ (visitStmt c s).1, d ∈ (visitStmts c l).1 := by
  induction l with
  | nil => cases hs
  | cons a rest ih =>
      intro d hd
      rw [visitStmts]
      rcases List.mem_cons.1 hs with rfl | hs2
      · exact List.mem_append.2 (Or.inl hd)
      · exact List.mem_append.2 (Or.inr (ih hs2 d hd))

/-- The explicit naming conditions coincide with is_implicitly_used. -/
theorem implicitNameCondition_iff (s : String) :
    implicitNameCondition s ↔ isImplicitlyUsed s = true := by
  simp only [implicitNameCondition, isImplicitlyUsed, Bool.or_eq_true, Bool.and_eq_true,
    beq_iff_eq]
  tauto

/-- A pragma-marked contributed definition has confidence zero. -/
theorem analyzeFile_pragma_confidence {f : PyFile} {d : Definition}
    (hd : d ∈ (analyzeFile f).1) (hl : d.line ∈ getIgnoredLines f.srcLines) :
    d.confidence = 0 := by
  obtain ⟨body, hp, d1, hd1, rfl⟩ := mem_analyzeFile_defs hd
  have hline := (applyPenalties_preserves d1 (isTestPath f.file_path) (testVisitStmts body)
    (frameworkVisitStmts body) (getIgnoredLines f.srcLines)).2.2.1
  rw [hline] at hl
  exact applyPenalties_ignored d1 _ _ _ _ (by simpa using hl)

/-!  Claim theorems. -/

/-- C1 counterexample: in the two-module cross-module scenario, analyze
over both modules reports A.used_function among the unused functions, even
though module B imports and calls it; the bare call reference never
matches the module-qualified full_name of A's definition. -/
theorem c1_counterexample :
    "A.used_function" ∈ (analyze 60 [fileA, fileB]).unused_functions.map (fun d => d.full_name) := by
  decide

/-- C1 amended: analyzing the directory with both modules reports both
A.used_function and A.unused_function as unused functions, while module
B's import binding used_function is resolved by the bare call and is not
reported. -/
theorem c1_amended :
    (analyze 60 [fileA, fileB]).unused_functions.map (fun d => d.full_name) =
      ["A.used_function", "A.unused_function"] ∧
    (analyze 60 [fileA, fileB]).unused_imports = [] ∧
    (analyze 60 [fileA, fileB]).unused_classes = [] ∧
    (analyze 60 [fileA, fileB]).unused_variables = [] := by
  refine ⟨by decide, by decide, by decide, by decide⟩

/-- C2: for a fixed file tree and thresholds t1 le t2, the total number of
definitions reported across the four unused-symbol lists at t2 is at most
the total reported at t1. -/
theorem c2_threshold_monotonicity (files : List PyFile) (t1 t2 : Nat) (h : t1 ≤ t2) :
    totalReported (analyze t2 files) ≤ totalReported (analyze t1 files) := by
  have hsub : List.Sublist (keptDefs t2 files) (keptDefs t1 files) := by
    simp only [keptDefs]
    apply List.monotone_filter_right
    intro d hd
    simp only [Bool.and_eq_true, Bool.not_eq_true', decide_eq_false_iff_not, Nat.not_lt] at hd ⊢
    exact ⟨le_trans h hd.1, hd.2⟩
  have key : ∀ q : Definition → Bool,
      ((keptDefs t2 files).filter q).length ≤ ((keptDefs t1 files).filter q).length :=
    fun q => (hsub.filter q).length_le
  simp only [totalReported, analyze]
  exact Nat.add_le_add (Nat.add_le_add (Nat.add_le_add (key _) (key _)) (key _)) (key _)

/-- C2 witness: instantiating the monotonicity theorem at thresholds 0 and
100 over the one-file fixture. -/
theorem c2_witness :
    (0 : Nat) ≤ 100 ∧ totalReported (analyze 100 [deadFile]) ≤ totalReported (analyze 0 [deadFile]) :=
  ⟨by decide, c2_threshold_monotonicity [deadFile] 0 100 (by decide)⟩

/-- C3 counterexample: in the self/cls scenario the uncalled sibling
method module.MyClass.another_method is reported in none of the four
unused lists, refuting the reported-as-unused half of the claim. -/
theorem c3_counterexample :
    ((analyze 60 [classFile]).unused_functions ++ (analyze 60 [classFile]).unused_imports ++
     (analyze 60 [classFile]).unused_classes ++ (analyze 60 [classFile]).unused_variables).all
      (fun d => !(d.full_name == "module.MyClass.another_method")) = true := by
  decide

/-- C3 amended: method-kind definitions are never placed in any of the
four unused lists, so neither helper nor the uncalled sibling method is
reported; the visitor does resolve self.helper() to the fully qualified
module.MyClass.helper reference. -/
theorem c3_amended :
    (∀ (t : Nat) (files : List PyFile) (d : Definition),
       (d ∈ (analyze t files).unused_functions ∨ d ∈ (analyze t files).unused_imports ∨
        d ∈ (analyze t files).unused_classes ∨ d ∈ (analyze t files).unused_variables) →
       d.def_type ≠ "method") ∧
    "module.MyClass.helper" ∈ (analyzeFile classFile).2 ∧
    ((analyze 60 [classFile]).unused_functions ++ (analyze 60 [classFile]).unused_imports ++
     (analyze 60 [classFile]).unused_classes ++ (analyze 60 [classFile]).unused_variables).all
      (fun d => !(d.full_name == "module.MyClass.helper")) = true := by
  refine ⟨?_, by decide, by decide⟩
  intro t files d h
  rcases h with h | h | h | h <;>
    (simp only [analyze] at h
     have h2 := (List.mem_filter.1 h).2
     simp only [beq_iff_eq] at h2
     rw [h2]
     decide)

/-- C3 witness: the reported class record of the scenario is not
method-kind. -/
theorem c3_witness : myClassDef.def_type ≠ "method" :=
  c3_amended.1 60 [classFile] myClassDef (Or.inr (Or.inr (Or.inl (by decide))))

/-- C4: in the entry-point scenario, main is not reported and the uncalled
sibling is the only reported unused function; in general every call name
detected in a main guard is fed back as a reference twice, bare and
module-qualified, whenever the module name is non-empty. -/
theorem c4_entry_point_rescue :
    ((analyze 60 [entryFile]).unused_functions.map (fun d => d.full_name) = ["prog.unused_sibling"] ∧
     (analyze 60 [entryFile]).unused_imports = [] ∧
     (analyze 60 [entryFile]).unused_classes = [] ∧
     (analyze 60 [entryFile]).unused_variables = []) ∧
    (∀ (f : PyFile) (body : List Stmt) (n : String),
       f.parsed = some body → f.module_name ≠ "" → n ∈ detectEntryPointCalls body →
       n ∈ (analyzeFile f).2 ∧ (f.module_name ++ "." ++ n) ∈ (analyzeFile f).2) := by
  refine ⟨⟨by decide, by decide, by decide, by decide⟩, ?_⟩
  intro f body n hp hm hn
  have hbeq : (f.module_name == "") = false := by
    simp [hm]
  constructor <;>
  · simp only [analyzeFile, hp]
    refine List.mem_append.2 (Or.inr ?_)
    refine List.mem_flatMap.2 ⟨n, hn, ?_⟩
    simp [hbeq]

/-- C4 witness: in the entry-point scenario the guard call main is fed
back bare and module-qualified. -/
theorem c4_witness :
    "main" ∈ (analyzeFile entryFile).2 ∧ "prog.main" ∈ (analyzeFile entryFile).2 :=
  c4_entry_point_rescue.2 entryFile entryBody "main" rfl (by decide) (by decide)

/-- C5: for every input tree and every threshold, no definition whose
simple name both starts and ends with a double underscore appears in any
of the four unused-symbol lists. -/
theorem c5_dunder_exclusion (t : Nat) (files : List PyFile) (d : Definition)
    (h : d ∈ (analyze t files).unused_functions ∨ d ∈ (analyze t files).unused_imports ∨
         d ∈ (analyze t files).unused_classes ∨ d ∈ (analyze t files).unused_variables) :
    ¬(strStartsWith d.simple_name "__" = true ∧ strEndsWith d.simple_name "__" = true) := by
  intro hdunder
  have himp := mem_keptDefs_not_implicit (mem_analyze_lists h)
  simp [isImplicitlyUsed, hdunder.1, hdunder.2] at himp

/-- C5 witness: the dunder-exclusion theorem applied to the concrete
reported definition of the one-file fixture at threshold zero. -/
theorem c5_witness :
    ¬(strStartsWith deadDef.simple_name "__" = true ∧ strEndsWith deadDef.simple_name "__" = true) :=
  c5_dunder_exclusion 0 [deadFile] deadDef (Or.inl (by decide))

/-- C6 counterexample: at threshold zero the suppressed function of the
pragma fixture is reported unused, because confidence zero still passes
the inclusive-keep comparison against threshold zero. -/
theorem c6_counterexample :
    getIgnoredLines pragmaFile.srcLines = [1] ∧
    (analyze 0 [pragmaFile]).unused_functions.map (fun d => d.full_name) = ["m.foo"] :=
  ⟨by decide, by decide⟩

/-- C6 amended: for every threshold of at least one, a definition whose
declaration line carries the suppression marker in its own file never
appears in any of the four unused lists. -/
theorem c6_suppression_exclusion (t : Nat) (files : List PyFile) (f : PyFile) (d : Definition)
    (ht : 1 ≤ t) (hd : d ∈ (analyzeFile f).1) (hl : d.line ∈ getIgnoredLines f.srcLines) :
    ¬(d ∈ (analyze t files).unused_functions ∨ d ∈ (analyze t files).unused_imports ∨
      d ∈ (analyze t files).unused_classes ∨ d ∈ (analyze t files).unused_variables) := by
  intro h
  have hconf := analyzeFile_pragma_confidence hd hl
  have hk := (mem_keptDefs (mem_analyze_lists h)).2.1
  omega

/-- C6 witness: the suppression theorem applied to the pragma fixture at
threshold one. -/
theorem c6_witness :
    ¬(pragmaFooDef ∈ (analyze 1 [pragmaFile]).unused_functions ∨
      pragmaFooDef ∈ (analyze 1 [pragmaFile]).unused_imports ∨
      pragmaFooDef ∈ (analyze 1 [pragmaFile]).unused_classes ∨
      pragmaFooDef ∈ (analyze 1 [pragmaFile]).unused_variables) :=
  c6_suppression_exclusion 1 [pragmaFile] pragmaFile pragmaFooDef (by decide) (by decide) (by decide)

/-- C7 counterexample: the visitor emits a Definition record for a
function nested inside another function's body - the nested scenario
yields records for both outer and inner. -/
theorem c7_counterexample :
    (visitStmts nestedCtx nestedBody).1.map (fun d => d.full_name) = ["m.outer", "m.inner"] := by
  decide

/-- C7 amended: a function definition lexically inside another function's
body is also recorded, with the qualified name built from the enclosing
module and class context only (the enclosing function's name is not a
segment). -/
theorem c7_amended (c : Ctx) (n1 n2 : String) (dec1 dec2 : List Expr)
    (body inner_body : List Stmt) (l1 l2 : Nat)
    (h : Stmt.functionDef n2 dec2 inner_body l2 ∈ body) :
    addDefWithBases c.file_path (getQualifiedName c n2)
        (if !c.class_stack.isEmpty then "method" else "function") l2 [] ∈
      (visitStmt c (Stmt.functionDef n1 dec1 body l1)).1 := by
  rw [visitStmt]
  refine List.mem_cons.2 (Or.inr ?_)
  refine visitStmts_defs_sub c h _ ?_
  rw [visitStmt]
  exact List.mem_cons_self _ _

/-- C7 witness: the amended theorem applied to the concrete nested
scenario. -/
theorem c7_witness :
    addDefWithBases nestedCtx.file_path (getQualifiedName nestedCtx "inner")
        (if !nestedCtx.class_stack.isEmpty then "method" else "function") 2 [] ∈
      (visitStmt nestedCtx (Stmt.functionDef "outer" [] [Stmt.functionDef "inner" [] [Stmt.passStmt] 2] 1)).1 :=
  c7_amended nestedCtx "outer" "inner" [] [] [Stmt.functionDef "inner" [] [Stmt.passStmt] 2]
    [Stmt.passStmt] 1 2 (List.mem_cons_self _ _)

/-- C8: a file that fails to parse contributes empty definition and
reference sets, total_files always counts every discovered file, and the
directory with one invalid and one valid file still reports the valid
file's unused function with total_files two. -/
theorem c8_failure_isolation :
    (∀ f : PyFile, f.parsed = none → analyzeFile f = ([], [])) ∧
    (∀ (t : Nat) (files : List PyFile), (analyze t files).total_files = files.length) ∧
    (analyze 60 [badParseFile, goodFile]).unused_functions.map (fun d => d.full_name) =
      ["good.unused_function"] ∧
    (analyze 60 [badParseFile, goodFile]).total_files = 2 := by
  refine ⟨?_, fun t files => rfl, by decide, by decide⟩
  intro f hf
  simp [analyzeFile, hf]

/-- C8 witness: the failure-isolation theorem applied to the concrete
parse-failure fixture. -/
theorem c8_witness : analyzeFile badParseFile = ([], []) :=
  c8_failure_isolation.1 badParseFile rfl

/-- C9 counterexample: a run whose discovery yields only the walk error of
a non-existent root returns Ok with zero files and empty lists, not an Err
result. -/
theorem c9_counterexample :
    analyzeRun 60 [WalkEntry.walkErr "No such file or directory (os error 2)"] =
      Except.ok { unused_functions := [], unused_imports := [], unused_classes := []
                , unused_variables := [], total_files := 0 } := rfl

/-- C9 amended: analyze never returns an error; in particular a run over
only walk errors, as produced by a non-existent root, returns Ok with an
empty result and zero total files. -/
theorem c9_amended :
    (∀ (t : Nat) (entries : List WalkEntry), ∃ r, analyzeRun t entries = Except.ok r) ∧
    (∀ (t : Nat) (msg : String),
       analyzeRun t [WalkEntry.walkErr msg] =
         Except.ok { unused_functions := [], unused_imports := [], unused_classes := []
                   , unused_variables := [], total_files := 0 }) :=
  ⟨fun t entries => ⟨analyze t (walkFiles entries), rfl⟩, fun _ _ => rfl⟩

/-- C10: a definition whose simple name matches the implicit-use naming
heuristics is created with references one and is_exported true, and such a
definition never appears in any of the four unused-symbol lists at any
threshold. -/
theorem c10_implicit_use_heuristics :
    (∀ (fp n ty : String) (ln : Nat) (bs : List String),
       implicitNameCondition (addDefWithBases fp n ty ln bs).simple_name →
       (addDefWithBases fp n ty ln bs).references = 1 ∧
       (addDefWithBases fp n ty ln bs).is_exported = true) ∧
    (∀ (t : Nat) (files : List PyFile) (d : Definition),
       implicitNameCondition d.simple_name →
       ¬(d ∈ (analyze t files).unused_functions ∨ d ∈ (analyze t files).unused_imports ∨
         d ∈ (analyze t files).unused_classes ∨ d ∈ (analyze t files).unused_variables)) := by
  constructor
  · intro fp n ty ln bs h
    have himp := (implicitNameCondition_iff _).1 h
    simp only [addDefWithBases] at himp ⊢
    simp [himp]
  · intro t files d h hmem
    have himp := mem_keptDefs_not_implicit (mem_analyze_lists hmem)
    rw [(implicitNameCondition_iff _).1 h] at himp
    cases himp

/-- C10 witness: the heuristics theorem applied to the standard entry
point name main, as a creation instance and as a non-membership instance
over the entry-point fixture. -/
theorem c10_witness :
    ((addDefWithBases "proj/prog.py" "prog.main" "function" 1 []).references = 1 ∧
     (addDefWithBases "proj/prog.py" "prog.main" "function" 1 []).is_exported = true) ∧
    ¬(mainDef ∈ (analyze 0 [entryFile]).unused_functions ∨
      mainDef ∈ (analyze 0 [entryFile]).unused_imports ∨
      mainDef ∈ (analyze 0 [entryFile]).unused_classes ∨
      mainDef ∈ (analyze 0 [entryFile]).unused_variables) :=
  ⟨c10_implicit_use_heuristics.1 "proj/prog.py" "prog.main" "function" 1 [] (by decide),
   c10_implicit_use_heuristics.2 0 [entryFile] mainDef (by decide)⟩

end SkylosRs
